import Mathlib

/-!
Shallow embedding of the pyteensy repository (UiL-OTS-labs/pyteensy).

The embedding follows `src/pyteensy.py` (the current module) and, where a
claim refers to it, the legacy duplicate `src/Teensy.py`.  Bytes are
modelled as `Nat` values (< 256 on real wires), byte strings as `List Nat`,
and Python exceptions as explicit error values of type `PyErr`.  Python's
`struct` module is modelled by `structPack` / `structUnpack` over the format
items actually used by the code (`B`, `Q`, `Ns`), including `struct.error`
behaviour: `pack` fails on out-of-range values or an argument count that
does not match the format, `unpack` fails unless the buffer length equals
the format size exactly, and the `s` format pads with zero bytes or
truncates on packing.
-/

namespace Pyteensy

/-- Message kind constants from class `_TeensyPackage` in `src/pyteensy.py`. -/
def IDENTIFY : Nat := 1

def REGISTER_INPUT : Nat := 2

def REGISTER_SINGLE_SHOT : Nat := 3

def DEREGISTER_INPUT : Nat := 4

def TIME : Nat := 5

def TIME_SET : Nat := 6

def ACKNOWLEDGE_SUCCES : Nat := 7

def ACKNOWLEDGE_FAILURE : Nat := 8

def ACKNOWLEDGE_LINE_INVALID : Nat := 9

def ACKNOWLEDGE_TIME : Nat := 10

def EVENT_TRIGGER : Nat := 11

/-- Error codes from class `TeensyError` in `src/pyteensy.py`. -/
def NO_ERROR : Nat := 0

def NOT_A_TEENSY : Nat := 1

def NOT_CONNECTED : Nat := 2

def UNABLE_TO_CONNECT : Nat := 3

def INVALID_TRIGGER_LINE : Nat := 4

def TEENSY_ERROR : Nat := 5

/-- Python exceptions that the modelled code can raise.  `blockedRead`
marks a read from a transport that has no (or not enough) bytes: the real
code blocks forever there, which a terminating model records as an error
value. -/
inductive PyErr
  | nameError
  | assertionError
  | valueError
  | blockedRead
deriving DecidableEq, Repr

/-- Format items of Python's `struct` that `_TeensyPackage` uses:
`B` (unsigned byte), `Q` (unsigned 64-bit little-endian), `Ns` (fixed-size
byte string). -/
inductive FmtItem
  | fB
  | fQ
  | fS (n : Nat)
deriving DecidableEq, Repr

/-- A value packed or unpacked by `struct`: an integer or a byte string. -/
inductive StructVal
  | vNat (n : Nat)
  | vBytes (bs : List Nat)
deriving DecidableEq, Repr

/-- Little-endian byte encoding of a natural number on `k` bytes
(the `<` + `Q` behaviour of `struct.pack`). -/
def leBytes : Nat → Nat → List Nat
  | 0, _ => []
  | k + 1, n => n % 256 :: leBytes k (n / 256)

/-- Little-endian byte decoding (the `<` + `Q` behaviour of
`struct.unpack`). -/
def unLE : List Nat → Nat
  | [] => 0
  | b :: bs => b + 256 * unLE bs

/-- Byte width of one format item (`struct.calcsize` per item). -/
def itemSize : FmtItem → Nat
  | .fB => 1
  | .fQ => 8
  | .fS n => n

/-- Byte width of a whole format (`struct.calcsize`). -/
def fmtSize (fmt : List FmtItem) : Nat := (fmt.map itemSize).sum

/-- Pack one value per one format item; `none` models `struct.error`
(value out of range or of the wrong type).  For `Ns`, Python truncates a
longer byte string and zero-pads a shorter one. -/
def packItem : FmtItem → StructVal → Option (List Nat)
  | .fB, .vNat n => if n ≤ 255 then some [n] else none
  | .fQ, .vNat n => if n < 2 ^ 64 then some (leBytes 8 n) else none
  | .fS k, .vBytes bs =>
      some (if k ≤ bs.length then bs.take k else bs ++ List.replicate (k - bs.length) 0)
  | _, _ => none

/-- `struct.pack`: fails (`none`) when the number of arguments does not
match the number of format items, or when an item fails. -/
def structPack : List FmtItem → List StructVal → Option (List Nat)
  | [], [] => some []
  | f :: fs, v :: vs => do
      let b ← packItem f v
      let r ← structPack fs vs
      pure (b ++ r)
  | _, _ => none

/-- Field extraction for `struct.unpack`, assuming the length check has
already been done. -/
def structUnpackAux : List FmtItem → List Nat → List StructVal
  | [], _ => []
  | .fB :: fs, bs => .vNat (bs.headD 0) :: structUnpackAux fs (bs.drop 1)
  | .fQ :: fs, bs => .vNat (unLE (bs.take 8)) :: structUnpackAux fs (bs.drop 8)
  | .fS k :: fs, bs => .vBytes (bs.take k) :: structUnpackAux fs (bs.drop k)

/-- `struct.unpack`: `struct.error` (`none`) unless the buffer length
equals the format size exactly. -/
def structUnpack (fmt : List FmtItem) (bs : List Nat) : Option (List StructVal) :=
  if bs.length = fmtSize fmt then some (structUnpackAux fmt bs) else none

/-- The byte constant `ZEP_TEENSY_TO_ZEP_UUID` of `src/pyteensy.py`
(the identifier the peer must echo). -/
def ZEP_TEENSY_TO_ZEP_UUID : List Nat :=
  "7d945241-0238-4c29-95e4-7d9864710ea2".toList.map Char.toNat

/-- The byte constant `ZEP_ZEP_TO_TEENSY_UUID` of `src/pyteensy.py`
(the identifier the client sends). -/
def ZEP_ZEP_TO_TEENSY_UUID : List Nat :=
  "91ae4c34-00b0-4d91-9000-ccc0989ac92a".toList.map Char.toNat

/-- `_TeensyPackage._payload_dict`: maps a message kind to its unpack
format; `none` models the `KeyError` raised for an unknown kind.  The
formats are the `struct.Struct` class attributes of `_TeensyPackage`. -/
def payloadFmt (kind : Nat) : Option (List FmtItem) :=
  if kind = IDENTIFY then some [.fB, .fB, .fS 36]
  else if kind = REGISTER_INPUT then some [.fB, .fB, .fB]
  else if kind = REGISTER_SINGLE_SHOT then some [.fB, .fB, .fB]
  else if kind = DEREGISTER_INPUT then some [.fB, .fB, .fB]
  else if kind = TIME then some [.fB, .fB]
  else if kind = TIME_SET then some [.fB, .fB, .fQ]
  else if kind = ACKNOWLEDGE_SUCCES then some [.fB, .fB]
  else if kind = ACKNOWLEDGE_FAILURE then some [.fB, .fB]
  else if kind = ACKNOWLEDGE_LINE_INVALID then some [.fB, .fB]
  else if kind = ACKNOWLEDGE_TIME then some [.fB, .fB, .fQ]
  else if kind = EVENT_TRIGGER then some [.fB, .fB, .fB, .fQ, .fB]
  else none

/-- `_TeensyPackage.parse_packet`: looks up the parse function by
`self.buf[1]` and unpacks the whole buffer with it.  `none` models the
exceptions (`IndexError`/`KeyError`/`struct.error`) that escape it. -/
def parse_packet (buf : List Nat) : Option (List StructVal) :=
  match buf.get? 1 with
  | none => none
  | some kind =>
      match payloadFmt kind with
      | none => none
      | some fmt => structUnpack fmt buf

/-- `_TeensyPackage.is_event` of `src/pyteensy.py`: for a buffer of at
least two bytes it tests membership of the package type in `_events`
(that is, equality with `EVENT_TRIGGER`); otherwise it executes
`return false`, and `false` is an undefined name in Python, so a
`NameError` is raised. -/
def is_event (buf : List Nat) : Except PyErr Bool :=
  if buf ≠ [] ∧ 2 ≤ buf.length then .ok (buf.getD 1 0 == EVENT_TRIGGER)
  else .error .nameError

/-- The default internal buffer of `_TeensyPackage.__init__`
(`buffer : bytearray = bytearray()`). -/
def default_buf : List Nat := []

/-- `_TeensyPackage.prepare_identify` of `src/pyteensy.py`: packs
`(HDR_SZ + len(uuid), IDENTIFY, uuid)` with format `<BB36s`. -/
def prepare_identify (uuid : List Nat) : Option (List Nat) :=
  structPack [.fB, .fB, .fS 36] [.vNat (2 + uuid.length), .vNat IDENTIFY, .vBytes uuid]

/-- `_TeensyPackage.prepare_register` of `src/pyteensy.py`. -/
def prepare_register (line : Nat) : Option (List Nat) :=
  structPack [.fB, .fB, .fB] [.vNat (2 + 1), .vNat REGISTER_INPUT, .vNat line]

/-- `_TeensyPackage.prepare_single_shot` of `src/pyteensy.py`. -/
def prepare_single_shot (line : Nat) : Option (List Nat) :=
  structPack [.fB, .fB, .fB] [.vNat (2 + 1), .vNat REGISTER_SINGLE_SHOT, .vNat line]

/-- `_TeensyPackage.prepare_deregister` of `src/pyteensy.py`. -/
def prepare_deregister (line : Nat) : Option (List Nat) :=
  structPack [.fB, .fB, .fB] [.vNat (2 + 1), .vNat DEREGISTER_INPUT, .vNat line]

/-- `_TeensyPackage.prepare_time` of `src/pyteensy.py`. -/
def prepare_time : Option (List Nat) :=
  structPack [.fB, .fB] [.vNat 2, .vNat TIME]

/-- `_TeensyPackage.prepare_set_time` of `src/pyteensy.py`. -/
def prepare_set_time (time_us : Nat) : Option (List Nat) :=
  structPack [.fB, .fB, .fQ] [.vNat (2 + 8), .vNat TIME_SET, .vNat time_us]

/-- Class `TeensyLineEvent` of `src/pyteensy.py`: a line, a logic level
and a timestamp. -/
structure TeensyLineEvent where
  timestamp : Nat
  line : Nat
  logiclevel : Nat
deriving DecidableEq, Repr

/-- `TeensyLineEvent.LOW`. -/
def TeensyLineEvent.LOW : Nat := 0

/-- `TeensyLineEvent.HIGH`. -/
def TeensyLineEvent.HIGH : Nat := 1

/-- `TeensyLineEvent.__init__`: stores the timestamp and line, and sets
`self.logiclevel = self.HIGH if logiclevel else self.LOW` — any truthy
(nonzero) raw logic level becomes `HIGH`, zero becomes `LOW`. -/
def mkTeensyLineEvent (time line logiclevel : Nat) : TeensyLineEvent :=
  { timestamp := time
    line := line
    logiclevel := if logiclevel ≠ 0 then TeensyLineEvent.HIGH else TeensyLineEvent.LOW }

/-- The frame-reassembly loop shared by `_read_packet` and
`_fetch_event` (via `_read_packet(False)`): read one byte, interpret it
as the total frame length, then read until that many bytes are in the
buffer.  `none` models the cases where the real code never returns a
frame: an empty transport (it blocks forever in `serial.read`), a
declared length `0` (the loop `while len(tbuf) != totsize` can never
exit since one byte was already read), or fewer available bytes than the
declared length (it blocks until they arrive; the model's stream is all
the bytes there will ever be). -/
def readOneFrame (stream : List Nat) : Option (List Nat × List Nat) :=
  match stream with
  | [] => none
  | b0 :: _ =>
      if b0 = 0 then none
      else if stream.length < b0 then none
      else some (stream.take b0, stream.drop b0)

/-- The Python tuple unpacking
`_, _, line, timestamp, logic = pkt.parse_packet()` used for
`EVENT_TRIGGER` frames: `none` models the `ValueError` raised when the
parsed tuple does not have five components, and the
`KeyError`/`struct.error` of a failed parse. -/
def parseEventFields (frame : List Nat) : Option (Nat × Nat × Nat) :=
  match parse_packet frame with
  | some [.vNat _, .vNat _, .vNat l, .vNat t, .vNat g] => some (l, t, g)
  | _ => none

/-- The Python tuple unpacking `_, reply = package.parse_packet()` used
by `_register_line` and `_deregister_input`: `none` models the
`ValueError` of a non-2-tuple and the errors of a failed parse. -/
def parseSizeReply (frame : List Nat) : Option Nat :=
  match parse_packet frame with
  | some [.vNat _, .vNat r] => some r
  | _ => none

/-- The Python tuple unpacking `_, second, third = package.parse_packet()`
used by `_identify` (`type_`, `uuid`) and `_time` (`reply`, `time`):
`none` models the `ValueError` of a non-3-tuple and the errors of a
failed parse. -/
def parseTriple (frame : List Nat) : Option (Nat × StructVal) :=
  match parse_packet frame with
  | some [.vNat _, .vNat second, third] => some (second, third)
  | _ => none

/-- `Teensy._read_packet(handle_event=True)` of `src/pyteensy.py`,
run on a byte stream: keeps reading frames, turns every `EVENT_TRIGGER`
frame into a `TeensyLineEvent` handed to `handle_event` (which appends
it to the `events` queue), and stops at the first non-event frame.
The first component is the list of events pushed to the sink, in push
order, before the function returns; the second is the returned frame and
the unconsumed bytes, or the Python exception that escaped.  The fuel
argument only bounds the recursion; `readPacket` supplies enough of it
for any stream. -/
def readPacketGo : Nat → List Nat → List TeensyLineEvent × Except PyErr (List Nat × List Nat)
  | 0, _ => ([], .error .blockedRead)
  | fuel + 1, stream =>
    match readOneFrame stream with
    | none => ([], .error .blockedRead)
    | some (frame, rest) =>
      match is_event frame with
      | .error e => ([], .error e)
      | .ok true =>
        match parseEventFields frame with
        | some (l, t, g) =>
            let r := readPacketGo fuel rest
            (mkTeensyLineEvent t l g :: r.1, r.2)
        | none => ([], .error .valueError)
      | .ok false => ([], .ok (frame, rest))

/-- `Teensy._read_packet` with its default `handle_event=True`, on all
the bytes the transport will deliver. -/
def readPacket (stream : List Nat) : List TeensyLineEvent × Except PyErr (List Nat × List Nat) :=
  readPacketGo stream.length stream

/-- `Teensy._fetch_event` of `src/pyteensy.py`: reads one packet with
`_read_packet(False)` (which returns the first frame unconditionally,
since `handle_event and pkt.is_event()` short-circuits), then executes
`assert package.is_event()` — a `NameError` for a short buffer, an
`AssertionError` for a non-event frame — and finally parses the frame
and hands the event to `handle_event`. -/
def fetch_event (stream : List Nat) : Except PyErr (TeensyLineEvent × List Nat) :=
  match readOneFrame stream with
  | none => .error .blockedRead
  | some (frame, rest) =>
    match is_event frame with
    | .error e => .error e
    | .ok false => .error .assertionError
    | .ok true =>
      match parseEventFields frame with
      | some (l, t, g) => .ok (mkTeensyLineEvent t l g, rest)
      | none => .error .valueError

/-- Outcome of the idle branch of `Teensy.run`'s main loop.  `ready`
means the loop consumed the available bytes and is again waiting for
tasks in the `Ready` state with the given events queued; `aborted` means
an exception escaped into `run`'s `except` handler, which prints the
traceback, sets `self.connected = False` and returns from the thread. -/
inductive IdleOutcome
  | ready (sink : List TeensyLineEvent)
  | aborted (e : PyErr) (sink : List TeensyLineEvent)
deriving DecidableEq, Repr

/-- The `except q.Empty` branch of `Teensy.run`:
`while self._serial.in_waiting: self._fetch_event()`, with `run`'s
surrounding `except Exception` handler.  Fuel as in `readPacketGo`. -/
def idleLoopGo : Nat → List TeensyLineEvent → List Nat → IdleOutcome
  | _, sink, [] => .ready sink
  | 0, sink, _ :: _ => .aborted .blockedRead sink
  | fuel + 1, sink, b :: bs =>
    match fetch_event (b :: bs) with
    | .error e => .aborted e sink
    | .ok (ev, rest) => idleLoopGo fuel (sink ++ [ev]) rest

/-- The idle branch of `Teensy.run` on all currently waiting bytes,
starting from an empty event queue. -/
def idleLoop (stream : List Nat) : IdleOutcome :=
  idleLoopGo stream.length [] stream

/-- The reply processing of `Teensy._identify`: after
`_, type_, uuid = package.parse_packet()`, it returns `NOT_A_TEENSY`
when the reply kind is not `IDENTIFY` or the payload is not
`ZEP_TEENSY_TO_ZEP_UUID`, and `NO_ERROR` otherwise. -/
def identifyReplyResult (r : Except PyErr (List Nat × List Nat)) : Except PyErr Nat :=
  match r with
  | .error e => .error e
  | .ok (reply, _) =>
    match parseTriple reply with
    | none => .error .valueError
    | some (t, u) =>
        if t ≠ IDENTIFY then .ok NOT_A_TEENSY
        else if u ≠ .vBytes ZEP_TEENSY_TO_ZEP_UUID then .ok NOT_A_TEENSY
        else .ok NO_ERROR

/-- `Teensy._identify` of `src/pyteensy.py`, given the bytes the peer
sends in reply: the events dispatched while waiting for the reply frame,
and the returned `TeensyError` code (or the exception that escaped). -/
def identify_full (stream : List Nat) : List TeensyLineEvent × Except PyErr Nat :=
  ((readPacket stream).1, identifyReplyResult (readPacket stream).2)

/-- The startup of `Teensy.run` combined with the client side of
`Teensy._start_thread`.  `run` executes `self._identify()` — discarding
its return value — and then `reply.put(TeensyError.NO_ERROR)`;
`_start_thread` reads that answer, raises if it is nonzero, and
otherwise sets `self.connected = True`.  The result is the answer put on
the answer queue together with the final value of `connected`; an
exception inside `_identify` instead aborts the thread. -/
def runStartup (stream : List Nat) : Except PyErr (Nat × Bool) :=
  match (identify_full stream).2 with
  | .error e => .error e
  | .ok _ => .ok (NO_ERROR, true)

/-- The reply processing of `Teensy._register_line`: after
`_, reply = package.parse_packet()`, `ACKNOWLEDGE_SUCCES` yields
`NO_ERROR`, `ACKNOWLEDGE_LINE_INVALID` yields `INVALID_TRIGGER_LINE`,
and anything else yields `TEENSY_ERROR`. -/
def registerReplyResult (r : Except PyErr (List Nat × List Nat)) : Except PyErr Nat :=
  match r with
  | .error e => .error e
  | .ok (reply, _) =>
    match parseSizeReply reply with
    | none => .error .valueError
    | some k =>
        if k = ACKNOWLEDGE_SUCCES then .ok NO_ERROR
        else if k = ACKNOWLEDGE_LINE_INVALID then .ok INVALID_TRIGGER_LINE
        else .ok TEENSY_ERROR

/-- `Teensy._register_line` of `src/pyteensy.py`, from the moment the
command frame has been written: the events dispatched while waiting for
the reply, and the answer it returns to the task loop (which `run` puts
on the answer queue for the caller of `register_line`). -/
def register_line_full (stream : List Nat) : List TeensyLineEvent × Except PyErr Nat :=
  ((readPacket stream).1, registerReplyResult (readPacket stream).2)

/-- The reply processing of `Teensy._deregister_input`: after
`_, reply = package.parse_packet()`, it executes
`assert reply == _TeensyPackage.ACKNOWLEDGE_SUCCES` and returns
`NO_ERROR`; any other reply kind makes the assertion fail. -/
def deregisterReplyResult (r : Except PyErr (List Nat × List Nat)) : Except PyErr Nat :=
  match r with
  | .error e => .error e
  | .ok (reply, _) =>
    match parseSizeReply reply with
    | none => .error .valueError
    | some k =>
        if k = ACKNOWLEDGE_SUCCES then .ok NO_ERROR
        else .error .assertionError

/-- `Teensy._deregister_input` of `src/pyteensy.py`, from the moment the
command frame has been written. -/
def deregister_input_full (stream : List Nat) : List TeensyLineEvent × Except PyErr Nat :=
  ((readPacket stream).1, deregisterReplyResult (readPacket stream).2)

/-- The first component of the pair returned by `Teensy._time`: either
an error code (`TeensyError.NO_ERROR`) or, in the failure branch, the
`TeensyError` exception object `TeensyError(TeensyError.TEENSY_ERROR)`
itself — which is truthy. -/
inductive TimeAnswerFst
  | code (n : Nat)
  | errObj (n : Nat)
deriving DecidableEq, Repr

/-- Python truthiness of the first component of `_time`'s answer as
tested by `if reply:` in `Teensy.time`. -/
def truthyFst : TimeAnswerFst → Bool
  | .code n => n != 0
  | .errObj _ => true

/-- The reply processing of `Teensy._time`: after
`_, reply, time = package.parse_packet()`, an `ACKNOWLEDGE_TIME` reply
yields `(TeensyError.NO_ERROR, time)` and anything else yields
`(TeensyError(TeensyError.TEENSY_ERROR), None)`.  The `vBytes` inner
branch is unreachable for kind `ACKNOWLEDGE_TIME`, whose third unpacked
field is the `Q`-format integer. -/
def timeReplyResult (r : Except PyErr (List Nat × List Nat)) :
    Except PyErr (TimeAnswerFst × Option Nat) :=
  match r with
  | .error e => .error e
  | .ok (reply, _) =>
    match parseTriple reply with
    | none => .error .valueError
    | some (k, u) =>
        if k = ACKNOWLEDGE_TIME then
          match u with
          | .vNat t => .ok (.code NO_ERROR, some t)
          | .vBytes _ => .ok (.code NO_ERROR, none)
        else .ok (.errObj TEENSY_ERROR, none)

/-- `Teensy._time` of `src/pyteensy.py`, from the moment the `TIME`
frame has been written. -/
def time_full (stream : List Nat) : List TeensyLineEvent × Except PyErr (TimeAnswerFst × Option Nat) :=
  ((readPacket stream).1, timeReplyResult (readPacket stream).2)

/-- The caller side `Teensy.time`: `reply, time = self._aqueue.get()`,
`if reply: raise TeensyError(reply)`, `return time`.  `none` models the
call not returning a timestamp (it raised, or the thread died and the
queue read never returns). -/
def time_client (stream : List Nat) : Option Nat :=
  match (time_full stream).2 with
  | .ok (fst, t) => if truthyFst fst then none else t
  | .error _ => none

/-- The task branch of `Teensy.run`'s main loop around one handler
result: on a normal return the answer is put on the answer queue and the
loop continues (`connected` stays `true`); on an exception the `except`
handler prints the traceback, sets `self.connected = False` and returns
from the thread, so no answer is ever put.  The result is
`(answer delivered to the caller, connected afterwards)`. -/
def taskLoopStep (r : Except PyErr Nat) : Option Nat × Bool :=
  match r with
  | .ok c => (some c, true)
  | .error _ => (none, false)

/-- The exact bytes of an `EVENT_TRIGGER` frame (format `<BBBQB`:
length, kind, line, timestamp, logic level). -/
def eventFrame (line ts logic : Nat) : List Nat :=
  12 :: EVENT_TRIGGER :: line :: (leBytes 8 ts ++ [logic])

/-- The concatenated wire bytes of a list of `EVENT_TRIGGER` frames,
each given as `(line, timestamp, logic)`. -/
def eventsWire (trs : List (Nat × Nat × Nat)) : List Nat :=
  trs.foldr (fun tr acc => eventFrame tr.1 tr.2.1 tr.2.2 ++ acc) []

/-- A logic level is well-formed when it is `LOW` or `HIGH`. -/
def levelOkB (e : TeensyLineEvent) : Bool :=
  e.logiclevel == TeensyLineEvent.LOW || e.logiclevel == TeensyLineEvent.HIGH

end Pyteensy

namespace LegacyTeensy

/-- `_TeensyPackage.prepare_single_shot` of the legacy duplicate
`src/Teensy.py` (lines 115-121): it calls
`self._REGISTER_SINGLE_SHOT.pack(self._HDR_SZ + 1, self.REGISTER_SINGLE_SHOT)`,
passing only two values to the three-item format `<BBB` — the `line`
argument is never packed, so `struct.pack` raises `struct.error` for
every line. -/
def prepare_single_shot (line : Nat) : Option (List Nat) :=
  Pyteensy.structPack [.fB, .fB, .fB]
    [.vNat (2 + 1), .vNat Pyteensy.REGISTER_SINGLE_SHOT]

end LegacyTeensy

deriving instance DecidableEq for Except

namespace Pyteensy

theorem leBytes_length (k n : Nat) : (leBytes k n).length = k := by
  induction k generalizing n with
  | zero => rfl
  | succ k ih => simp [leBytes, ih]

theorem unLE_leBytes (k n : Nat) : unLE (leBytes k n) = n % 2 ^ (8 * k) := by
  induction k generalizing n with
  | zero => simp [leBytes, unLE, Nat.mod_one]
  | succ k ih =>
      have hpow : 2 ^ (8 * (k + 1)) = 256 * 2 ^ (8 * k) := by
        rw [Nat.mul_succ, pow_add]; ring
      rw [leBytes, unLE, ih, hpow, Nat.mod_mul]

theorem eventFrame_length (l t g : Nat) : (eventFrame l t g).length = 12 := by
  simp [eventFrame, leBytes_length]

theorem readOneFrame_rest_lt {s f r : List Nat} (h : readOneFrame s = some (f, r)) :
    r.length < s.length := by
  cases s with
  | nil => simp [readOneFrame] at h
  | cons b0 tail =>
      rw [readOneFrame] at h
      by_cases h0 : b0 = 0
      · rw [if_pos h0] at h; cases h
      · rw [if_neg h0] at h
        by_cases h1 : (b0 :: tail).length < b0
        · rw [if_pos h1] at h; cases h
        · rw [if_neg h1] at h
          cases h
          simp only [List.length_drop, List.length_cons] at h1 ⊢
          omega

theorem readOneFrame_append {w : List Nat} (s : List Nat) (hne : w ≠ [])
    (hh : w.headD 0 = w.length) : readOneFrame (w ++ s) = some (w, s) := by
  cases w with
  | nil => exact absurd rfl hne
  | cons b0 tail =>
      have hb0 : b0 = tail.length + 1 := by simpa using hh
      show readOneFrame (b0 :: (tail ++ s)) = _
      rw [readOneFrame]
      split_ifs with h0 h1
      · omega
      · simp only [List.length_cons, List.length_append] at h1; omega
      · subst hb0
        simp [List.take_succ_cons, List.drop_succ_cons, List.take_left, List.drop_left]

theorem readPacketGo_fuel : ∀ (f1 f2 : Nat) (s : List Nat), s.length ≤ f1 → s.length ≤ f2 →
    readPacketGo f1 s = readPacketGo f2 s := by
  intro f1
  induction f1 with
  | zero =>
      intro f2 s h1 _h2
      have hs : s = [] := List.eq_nil_of_length_eq_zero (Nat.le_zero.mp h1)
      subst hs
      cases f2 <;> simp [readPacketGo, readOneFrame]
  | succ f1 ih =>
      intro f2 s h1 h2
      cases s with
      | nil => cases f2 <;> simp [readPacketGo, readOneFrame]
      | cons b bs =>
          cases f2 with
          | zero => simp at h2
          | succ f2 =>
              simp only [readPacketGo]
              cases hro : readOneFrame (b :: bs) with
              | none => simp only [hro]
              | some pr =>
                  obtain ⟨frame, rest⟩ := pr
                  have hlt : rest.length < (b :: bs).length := readOneFrame_rest_lt hro
                  have hr1 : rest.length ≤ f1 := by
                    simp only [List.length_cons] at hlt h1; omega
                  have hr2 : rest.length ≤ f2 := by
                    simp only [List.length_cons] at hlt h2; omega
                  simp only [hro]
                  cases hie : is_event frame with
                  | error e => simp only [hie]
                  | ok bb =>
                      cases bb with
                      | false => simp only [hie]
                      | true =>
                          simp only [hie]
                          cases hpe : parseEventFields frame with
                          | none => simp only [hpe]
                          | some tri =>
                              obtain ⟨l, t, g⟩ := tri
                              simp only [hpe, ih f2 rest hr1 hr2]

theorem readPacket_append_event (l t g : Nat) (s : List Nat) (ht : t < 2 ^ 64) :
    readPacket (eventFrame l t g ++ s) =
      (mkTeensyLineEvent t l g :: (readPacket s).1, (readPacket s).2) := by
  have hev : is_event (eventFrame l t g) = .ok true := rfl
  have hpe0 : parseEventFields (eventFrame l t g) = some (l, unLE (leBytes 8 t), g) := rfl
  have hmod : t % 2 ^ (8 * 8) = t := Nat.mod_eq_of_lt (by simpa using ht)
  have hpe : parseEventFields (eventFrame l t g) = some (l, t, g) := by
    rw [hpe0, unLE_leBytes, hmod]
  have hone : readOneFrame (eventFrame l t g ++ s) = some (eventFrame l t g, s) :=
    readOneFrame_append s (by simp [eventFrame]) rfl
  have hlen : (eventFrame l t g ++ s).length = (11 + s.length) + 1 := by
    simp only [List.length_append, eventFrame_length]; omega
  unfold readPacket
  rw [hlen]
  simp only [readPacketGo, hone, hev, hpe]
  rw [readPacketGo_fuel (11 + s.length) s.length s (by omega) (by omega)]

theorem readPacket_append_nonevent (w s : List Nat) (hne : w ≠ [])
    (hh : w.headD 0 = w.length) (h2 : 2 ≤ w.length) (hk : w.getD 1 0 ≠ EVENT_TRIGGER) :
    readPacket (w ++ s) = ([], .ok (w, s)) := by
  have hevb : (w.getD 1 0 == EVENT_TRIGGER) = false := beq_eq_false_iff_ne.mpr hk
  have hev : is_event w = .ok false := by
    rw [is_event, if_pos ⟨hne, h2⟩, hevb]
  have hone : readOneFrame (w ++ s) = some (w, s) := readOneFrame_append s hne hh
  have hlen : (w ++ s).length = (w.length + s.length - 1) + 1 := by
    simp only [List.length_append]; omega
  unfold readPacket
  rw [hlen]
  simp only [readPacketGo, hone, hev]

theorem readPacket_single (w : List Nat) (hne : w ≠ [])
    (hh : w.headD 0 = w.length) (h2 : 2 ≤ w.length) (hk : w.getD 1 0 ≠ EVENT_TRIGGER) :
    readPacket w = ([], .ok (w, [])) := by
  have h := readPacket_append_nonevent w [] hne hh h2 hk
  simpa using h

theorem payloadFmt_pair {k : Nat} (hk : payloadFmt k = some [.fB, .fB]) :
    k = TIME ∨ k = ACKNOWLEDGE_SUCCES ∨ k = ACKNOWLEDGE_FAILURE ∨ k = ACKNOWLEDGE_LINE_INVALID := by
  by_cases h5 : k = TIME
  · exact Or.inl h5
  by_cases h7 : k = ACKNOWLEDGE_SUCCES
  · exact Or.inr (Or.inl h7)
  by_cases h8 : k = ACKNOWLEDGE_FAILURE
  · exact Or.inr (Or.inr (Or.inl h8))
  by_cases h9 : k = ACKNOWLEDGE_LINE_INVALID
  · exact Or.inr (Or.inr (Or.inr h9))
  exfalso
  by_cases h1 : k = IDENTIFY
  · subst h1; exact absurd hk (by decide)
  by_cases h2 : k = REGISTER_INPUT
  · subst h2; exact absurd hk (by decide)
  by_cases h3 : k = REGISTER_SINGLE_SHOT
  · subst h3; exact absurd hk (by decide)
  by_cases h4 : k = DEREGISTER_INPUT
  · subst h4; exact absurd hk (by decide)
  by_cases h6 : k = TIME_SET
  · subst h6; exact absurd hk (by decide)
  by_cases h10 : k = ACKNOWLEDGE_TIME
  · subst h10; exact absurd hk (by decide)
  by_cases h11 : k = EVENT_TRIGGER
  · subst h11; exact absurd hk (by decide)
  unfold payloadFmt at hk
  rw [if_neg h1, if_neg h2, if_neg h3, if_neg h4, if_neg h5, if_neg h6, if_neg h7,
      if_neg h8, if_neg h9, if_neg h10, if_neg h11] at hk
  cases hk

theorem payloadFmt_pair_ne_event {k : Nat} (hk : payloadFmt k = some [.fB, .fB]) :
    k ≠ EVENT_TRIGGER := by
  rcases payloadFmt_pair hk with h | h | h | h <;> subst h <;> decide

theorem parseSizeReply_pair {k : Nat} (hk : payloadFmt k = some [.fB, .fB]) :
    parseSizeReply [2, k] = some k := by
  unfold parseSizeReply parse_packet
  simp [hk, structUnpack, fmtSize, itemSize, structUnpackAux]

theorem levelOkB_mk (time line logic : Nat) :
    levelOkB (mkTeensyLineEvent time line logic) = true := by
  unfold levelOkB mkTeensyLineEvent TeensyLineEvent.LOW TeensyLineEvent.HIGH
  split_ifs <;> rfl

theorem readPacketGo_levelOk (fuel : Nat) :
    ∀ stream, ((readPacketGo fuel stream).1.all levelOkB) = true := by
  induction fuel with
  | zero => intro s; rfl
  | succ fuel ih =>
      intro s
      simp only [readPacketGo]
      cases hro : readOneFrame s with
      | none => simp only [hro]; rfl
      | some pr =>
          obtain ⟨frame, rest⟩ := pr
          simp only [hro]
          cases hie : is_event frame with
          | error e => simp only [hie]; rfl
          | ok bb =>
              cases bb with
              | false => simp only [hie]; rfl
              | true =>
                  simp only [hie]
                  cases hpe : parseEventFields frame with
                  | none => simp only [hpe]; rfl
                  | some tri =>
                      obtain ⟨l, t, g⟩ := tri
                      simp only [hpe, List.all_cons, levelOkB_mk, ih rest, Bool.and_self]

theorem fetch_event_levelOk {stream : List Nat} {ev : TeensyLineEvent} {rest : List Nat}
    (h : fetch_event stream = .ok (ev, rest)) : levelOkB ev = true := by
  unfold fetch_event at h
  cases hro : readOneFrame stream with
  | none => rw [hro] at h; cases h
  | some pr =>
      obtain ⟨frame, rest'⟩ := pr
      simp only [hro] at h
      cases hie : is_event frame with
      | error e => simp only [hie] at h; cases h
      | ok bb =>
          cases bb with
          | false => simp only [hie] at h; cases h
          | true =>
              simp only [hie] at h
              cases hpe : parseEventFields frame with
              | none => simp only [hpe] at h; cases h
              | some tri =>
                  obtain ⟨l, t, g⟩ := tri
                  simp only [hpe] at h
                  cases h
                  exact levelOkB_mk ..

/-- C1: the claim says a handshake reply that is not an `Identify` frame
with the expected peer identifier makes the session fail with
`NotATargetDevice` and never reach `Ready`.  The code violates this:
`_identify` does detect the mismatch and returns
`TeensyError.NOT_A_TEENSY`, but `Teensy.run` calls `self._identify()`
and discards the return value, unconditionally putting
`TeensyError.NO_ERROR` on the answer queue, so `_start_thread` sets
`connected = True` and the session reaches the `Ready` main loop.  The
failing input is an `Identify` reply frame `[38, 1]` followed by 36 zero
bytes (a 36-byte identifier different from `ZEP_TEENSY_TO_ZEP_UUID`). -/
theorem claim_C1_handshake_mismatch_still_connected :
    (identify_full ([38, 1] ++ List.replicate 36 0)).2 = .ok NOT_A_TEENSY
    ∧ runStartup ([38, 1] ++ List.replicate 36 0) = .ok (NO_ERROR, true) := by decide

/-- C2 counterexample: the claim says a non-`EventTrigger` frame arriving
while no command is pending is dropped with a logged anomaly and the
loop keeps running in `Ready`.  On the concrete input — an unsolicited
`AckSuccess` frame `[2, 7]` with no pending command — `_fetch_event`'s
`assert package.is_event()` fails, the `AssertionError` escapes into
`run`'s `except` handler and the coordinator thread exits with
`connected = False`: the loop does not continue. -/
theorem claim_C2_counterexample :
    idleLoop [2, ACKNOWLEDGE_SUCCES] = .aborted .assertionError [] := by decide

/-- C2 amended: every well-framed inbound frame of at least two bytes
whose kind is not `EventTrigger`, arriving while no command is pending,
makes `_fetch_event`'s assertion fail; the exception is reported (a
traceback is printed by `run`'s handler) but the coordinator thread
exits with `connected = False` — the loop does not continue in the
`Ready` state. -/
theorem claim_C2_amended (stream frame rest : List Nat)
    (hro : readOneFrame stream = some (frame, rest))
    (h2 : 2 ≤ frame.length) (hk : frame.getD 1 0 ≠ EVENT_TRIGGER) :
    idleLoop stream = .aborted .assertionError [] := by
  have hne : frame ≠ [] := by
    intro hh; rw [hh] at h2; simp at h2
  have hevb : (frame.getD 1 0 == EVENT_TRIGGER) = false := beq_eq_false_iff_ne.mpr hk
  have hev : is_event frame = .ok false := by
    rw [is_event, if_pos ⟨hne, h2⟩, hevb]
  have hfe : fetch_event stream = .error .assertionError := by
    unfold fetch_event
    simp only [hro, hev]
  cases stream with
  | nil => rw [readOneFrame] at hro; cases hro
  | cons b bs =>
      unfold idleLoop
      simp only [List.length_cons, idleLoopGo, hfe]

/-- C2 witness: the amended claim at the concrete unsolicited
`AckFailure` frame `[2, 8]`. -/
theorem claim_C2_amended_witness :
    idleLoop [2, ACKNOWLEDGE_FAILURE] = .aborted .assertionError [] :=
  claim_C2_amended [2, ACKNOWLEDGE_FAILURE] [2, ACKNOWLEDGE_FAILURE] []
    (by decide) (by decide) (by decide)

/-- C3: the claim says that for every kind and valid payload
`decode(encode(kind, payload))` gives back the kind and payload, and in
particular a `RegisterSingleShot` command for line `n` round-trips.  The
round-trip does hold for the codec of `src/pyteensy.py` (shown here at
line 5), but the cited `prepare_single_shot` of `src/Teensy.py` passes
only two values to the three-item `<BBB` format — the `line` argument is
never packed — so `struct.pack` raises `struct.error` for every line and
no frame is ever produced: the code contradicts its own struct
declaration and the working sibling in `src/pyteensy.py`. -/
theorem claim_C3_legacy_single_shot_pack_fails :
    (∀ line : Nat, LegacyTeensy.prepare_single_shot line = none)
    ∧ prepare_single_shot 5 = some [3, REGISTER_SINGLE_SHOT, 5]
    ∧ parse_packet [3, REGISTER_SINGLE_SHOT, 5]
        = some [.vNat 3, .vNat REGISTER_SINGLE_SHOT, .vNat 5] :=
  ⟨fun _ => rfl, by decide, by decide⟩

/-- C4 counterexample: the claim says an `AckFailure` reply delivers a
`PeripheralRejected` failure distinct from the `UnspecifiedPeripheralError`
delivered for other unexpected reply kinds.  In `_register_line` the
`AckFailure` kind falls into the final `else` and yields
`TeensyError.TEENSY_ERROR` ("Unspecified Teensy error."), exactly the
same outcome as any other unexpected kind (here a `TIME` frame): the two
outcomes are equal, not distinct, and no `PeripheralRejected`-like error
code exists in `TeensyError`. -/
theorem claim_C4_counterexample :
    register_line_full [2, ACKNOWLEDGE_FAILURE] = ([], .ok TEENSY_ERROR)
    ∧ register_line_full [2, TIME] = ([], .ok TEENSY_ERROR)
    ∧ (register_line_full [2, ACKNOWLEDGE_FAILURE]).2 = (register_line_full [2, TIME]).2 := by
  decide

/-- C4 amended: an `AckFailure` reply to a pending command delivers
`TeensyError.TEENSY_ERROR`, the same unspecified-error outcome as every
reply kind other than `AckSuccess` and `AckLineInvalid`; the code has no
distinct `PeripheralRejected` outcome. -/
theorem claim_C4_amended (k : Nat) (hk : payloadFmt k = some [.fB, .fB])
    (hs : k ≠ ACKNOWLEDGE_SUCCES) (hl : k ≠ ACKNOWLEDGE_LINE_INVALID) :
    register_line_full [2, ACKNOWLEDGE_FAILURE] = ([], .ok TEENSY_ERROR)
    ∧ register_line_full [2, k] = ([], .ok TEENSY_ERROR) := by
  refine ⟨by decide, ?_⟩
  have hrp : readPacket [2, k] = ([], .ok ([2, k], [])) :=
    readPacket_single _ (by simp) rfl (by simp) (payloadFmt_pair_ne_event hk)
  simp only [register_line_full, hrp, registerReplyResult, parseSizeReply_pair hk,
    if_neg hs, if_neg hl]

/-- C4 witness: the amended claim at the concrete unexpected kind
`TIME`. -/
theorem claim_C4_amended_witness :
    register_line_full [2, ACKNOWLEDGE_FAILURE] = ([], .ok TEENSY_ERROR)
    ∧ register_line_full [2, TIME] = ([], .ok TEENSY_ERROR) :=
  claim_C4_amended TIME (by decide) (by decide) (by decide)

/-- C5: the claim says an `AckLineInvalid` reply to a pending
`DeregisterInput` delivers `InvalidLine` to the caller with the session
unaffected.  The code violates this: `_deregister_input` executes
`assert reply == ACKNOWLEDGE_SUCCES`, so the `AckLineInvalid` frame
`[2, 9]` makes the assertion fail, the exception escapes to `run`'s
handler, the coordinator thread exits with `connected = False` and no
answer is ever delivered to the caller (whose queue read blocks
forever).  The sibling `_register_line` handles the same reply kind
gracefully as `INVALID_TRIGGER_LINE`, showing the claimed behaviour is
the intent and the assert a slip. -/
theorem claim_C5_deregister_invalid_line_asserts :
    deregister_input_full [2, ACKNOWLEDGE_LINE_INVALID] = ([], .error .assertionError)
    ∧ taskLoopStep (deregister_input_full [2, ACKNOWLEDGE_LINE_INVALID]).2 = (none, false)
    ∧ register_line_full [2, ACKNOWLEDGE_LINE_INVALID] = ([], .ok INVALID_TRIGGER_LINE) := by
  decide

/-- C6 counterexample: the claim says `encode` either fails
(`PayloadTooLarge`/`SchemaMismatch`) or produces a frame whose first
byte equals `2 +` the encoded payload length, and in particular an
`Identify` frame with an identifier shorter than the schema size must
fail.  On the concrete 10-byte identifier (ten bytes `97`),
`prepare_identify` succeeds, zero-pads the payload to 36 bytes, and
declares `total_length = 12` on a 38-byte frame: it neither fails nor
satisfies the length invariant. -/
theorem claim_C6_counterexample :
    prepare_identify (List.replicate 10 97)
      = some (12 :: IDENTIFY :: (List.replicate 10 97 ++ List.replicate 26 0))
    ∧ ((12 : Nat) :: IDENTIFY :: (List.replicate 10 97 ++ List.replicate 26 0)).length = 38
    ∧ (12 : Nat) ≠ 38 := by decide

/-- C6 amended: the encoder never checks the payload against the schema.
`prepare_identify` always emits a 38-byte frame declaring
`total_length = 2 + len(identifier)` — consistent only when the
identifier is exactly 36 bytes — and fails (with `struct.error`) only
when `2 + len(identifier)` exceeds one byte; the fixed-payload prepare
functions always satisfy `total_length = 2 + len(payload)`. -/
theorem claim_C6_amended :
    (∀ uuid : List Nat, 2 + uuid.length ≤ 255 →
       ∃ buf, prepare_identify uuid = some buf ∧ buf.length = 38
         ∧ buf.headD 0 = 2 + uuid.length)
    ∧ (∀ uuid : List Nat, 255 < 2 + uuid.length → prepare_identify uuid = none)
    ∧ (∀ line : Nat, line ≤ 255 → prepare_register line = some [3, REGISTER_INPUT, line])
    ∧ (∀ line : Nat, line ≤ 255 →
        prepare_single_shot line = some [3, REGISTER_SINGLE_SHOT, line])
    ∧ (∀ line : Nat, line ≤ 255 →
        prepare_deregister line = some [3, DEREGISTER_INPUT, line])
    ∧ prepare_time = some [2, TIME]
    ∧ (∀ t : Nat, t < 2 ^ 64 → prepare_set_time t = some (10 :: TIME_SET :: leBytes 8 t)) := by
  refine ⟨?_, ?_, ?_, ?_, ?_, by decide, ?_⟩
  · intro uuid h
    by_cases h36 : 36 ≤ uuid.length
    · refine ⟨(2 + uuid.length) :: IDENTIFY :: uuid.take 36, ?_, ?_, rfl⟩
      · simp [prepare_identify, structPack, packItem, h, h36, IDENTIFY]
      · simp [List.length_take]
        omega
    · refine ⟨(2 + uuid.length) :: IDENTIFY :: (uuid ++ List.replicate (36 - uuid.length) 0),
        ?_, ?_, rfl⟩
      · simp [prepare_identify, structPack, packItem, h, h36, IDENTIFY]
      · simp
        omega
  · intro uuid h
    have h' : ¬(2 + uuid.length ≤ 255) := by omega
    simp [prepare_identify, structPack, packItem, h']
  · intro line h
    simp [prepare_register, structPack, packItem, h, REGISTER_INPUT]
  · intro line h
    simp [prepare_single_shot, structPack, packItem, h, REGISTER_SINGLE_SHOT]
  · intro line h
    simp [prepare_deregister, structPack, packItem, h, DEREGISTER_INPUT]
  · intro t h
    have h' : t < 18446744073709551616 := by simpa using h
    simp [prepare_set_time, structPack, packItem, h', TIME_SET]

/-- C6 witness: the amended claim at concrete inputs (register line 5
and timestamp 100). -/
theorem claim_C6_amended_witness :
    prepare_register 5 = some [3, REGISTER_INPUT, 5]
    ∧ prepare_set_time 100 = some (10 :: TIME_SET :: leBytes 8 100) :=
  ⟨claim_C6_amended.2.2.1 5 (by decide), claim_C6_amended.2.2.2.2.2.2 100 (by decide)⟩

/-- C7: for every sequence of `EventTrigger` frames (each a byte-valid
`(line, timestamp, logic)` triple) arriving on the wire before the reply
to a pending command, the coordinator pushes each event to the sink — in
wire-arrival order, as the first component, which `_read_packet` fills
before it returns the reply frame and hence before the command's answer
is computed and delivered — and the command still resolves with the
outcome determined by its actual reply kind. -/
theorem claim_C7_events_before_reply (trs : List (Nat × Nat × Nat)) (k : Nat)
    (hb : ∀ tr ∈ trs, tr.1 ≤ 255 ∧ tr.2.1 < 2 ^ 64 ∧ tr.2.2 ≤ 255)
    (hk : payloadFmt k = some [.fB, .fB]) :
    register_line_full (eventsWire trs ++ [2, k]) =
      (trs.map fun tr => mkTeensyLineEvent tr.2.1 tr.1 tr.2.2,
       .ok (if k = ACKNOWLEDGE_SUCCES then NO_ERROR
            else if k = ACKNOWLEDGE_LINE_INVALID then INVALID_TRIGGER_LINE
            else TEENSY_ERROR)) := by
  induction trs with
  | nil =>
      have hrp : readPacket [2, k] = ([], .ok ([2, k], [])) :=
        readPacket_single _ (by simp) rfl (by simp)
          (payloadFmt_pair_ne_event hk)
      show register_line_full [2, k] = _
      simp only [register_line_full, hrp, registerReplyResult, parseSizeReply_pair hk,
        List.map_nil]
      split_ifs <;> rfl
  | cons tr trs ih =>
      obtain ⟨l, t, g⟩ := tr
      have hbh := hb (l, t, g) (List.mem_cons_self _ _)
      have hstep := readPacket_append_event l t g (eventsWire trs ++ [2, k]) hbh.2.1
      have ihh := ih (fun x hx => hb x (List.mem_cons_of_mem _ hx))
      have hwire : eventsWire ((l, t, g) :: trs) ++ [2, k]
          = eventFrame l t g ++ (eventsWire trs ++ [2, k]) := by
        simp [eventsWire, List.append_assoc]
      unfold register_line_full at ihh ⊢
      rw [hwire, hstep]
      rw [Prod.mk.injEq] at ihh
      obtain ⟨ih1, ih2⟩ := ihh
      simp only [List.map_cons]
      rw [ih1, ih2]

/-- C7 witness: the spec scenario — an `EventTrigger` for line 3, level
high, timestamp 42, followed by the `AckSuccess` reply: the event is in
the sink and the command resolves successfully. -/
theorem claim_C7_events_before_reply_witness :
    register_line_full (eventsWire [(3, 42, 1)] ++ [2, ACKNOWLEDGE_SUCCES]) =
      ([mkTeensyLineEvent 42 3 1], .ok NO_ERROR) := by
  have h := claim_C7_events_before_reply [(3, 42, 1)] ACKNOWLEDGE_SUCCES (by decide) (by decide)
  simpa using h

/-- C8: for every 64-bit value `t`, an `AckTime` reply carrying the
8-byte little-endian encoding of `t` makes `_time` return
`(NO_ERROR, t)` and makes the caller-side `time()` return exactly `t`
(in microseconds, as carried on the wire). -/
theorem claim_C8_time_query_roundtrip (t : Nat) (ht : t < 2 ^ 64) :
    time_full (10 :: ACKNOWLEDGE_TIME :: leBytes 8 t) = ([], .ok (.code NO_ERROR, some t))
    ∧ time_client (10 :: ACKNOWLEDGE_TIME :: leBytes 8 t) = some t := by
  have hlen : (10 :: ACKNOWLEDGE_TIME :: leBytes 8 t).length = 10 := by
    simp [leBytes_length]
  have hrp : readPacket (10 :: ACKNOWLEDGE_TIME :: leBytes 8 t)
      = ([], .ok (10 :: ACKNOWLEDGE_TIME :: leBytes 8 t, [])) := by
    refine readPacket_single _ (by simp) ?_ ?_ (show ACKNOWLEDGE_TIME ≠ EVENT_TRIGGER by decide)
    · simpa using hlen.symm
    · omega
  have hpt : parseTriple (10 :: ACKNOWLEDGE_TIME :: leBytes 8 t)
      = some (ACKNOWLEDGE_TIME, .vNat (unLE (leBytes 8 t))) := rfl
  have hmod : unLE (leBytes 8 t) = t := by
    rw [unLE_leBytes]
    exact Nat.mod_eq_of_lt (by simpa using ht)
  have htf : time_full (10 :: ACKNOWLEDGE_TIME :: leBytes 8 t)
      = ([], .ok (.code NO_ERROR, some t)) := by
    simp only [time_full, hrp, timeReplyResult, hpt, hmod, if_pos]
  refine ⟨htf, ?_⟩
  simp only [time_client, htf, truthyFst]
  rfl

/-- C8 witness: the spec scenario — payload `100` (bytes
`64 00 00 00 00 00 00 00`) yields timestamp `100`. -/
theorem claim_C8_time_query_roundtrip_witness :
    time_client (10 :: ACKNOWLEDGE_TIME :: leBytes 8 100) = some 100 :=
  (claim_C8_time_query_roundtrip 100 (by decide)).2

/-- C9: calling `is_event` on a packet whose buffer holds fewer than two
bytes reaches `return false`, where `false` is an undefined Python name,
so a `NameError` is raised instead of the boolean `False` being
returned — for every such buffer, including the empty default. -/
theorem claim_C9_is_event_nameerror (buf : List Nat) (h : buf.length < 2) :
    is_event buf = .error .nameError := by
  rw [is_event, if_neg]
  rintro ⟨-, h2⟩
  omega

/-- C9 witness: the empty default buffer of `_TeensyPackage.__init__`. -/
theorem claim_C9_is_event_nameerror_witness :
    is_event default_buf = .error .nameError :=
  claim_C9_is_event_nameerror default_buf (by decide)

/-- C10: every `TeensyLineEvent` has logic level exactly `LOW` (0) or
`HIGH` (1); any nonzero raw logic byte is normalised to `HIGH` and zero
to `LOW`; and every event that the coordinator ever pushes to the event
sink — via `_read_packet` while a command waits for its reply, or via
`_fetch_event` in the idle loop — satisfies this invariant. -/
theorem claim_C10_logiclevel_invariant :
    (∀ time line logic : Nat,
        (mkTeensyLineEvent time line logic).logiclevel = TeensyLineEvent.LOW
        ∨ (mkTeensyLineEvent time line logic).logiclevel = TeensyLineEvent.HIGH)
    ∧ (∀ time line logic : Nat, logic ≠ 0 →
        (mkTeensyLineEvent time line logic).logiclevel = TeensyLineEvent.HIGH)
    ∧ (∀ time line : Nat, (mkTeensyLineEvent time line 0).logiclevel = TeensyLineEvent.LOW)
    ∧ (∀ stream : List Nat, ((readPacket stream).1.all levelOkB) = true)
    ∧ (∀ (stream : List Nat) (ev : TeensyLineEvent) (rest : List Nat),
        fetch_event stream = .ok (ev, rest) → levelOkB ev = true) := by
  refine ⟨?_, ?_, ?_, ?_, ?_⟩
  · intro time line logic
    unfold mkTeensyLineEvent
    by_cases h : logic ≠ 0
    · exact Or.inr (by simp [h])
    · exact Or.inl (by simp [h])
  · intro time line logic h
    simp [mkTeensyLineEvent, h]
  · intro time line
    simp [mkTeensyLineEvent]
  · intro stream
    exact readPacketGo_levelOk stream.length stream
  · intro stream ev rest h
    exact fetch_event_levelOk h

/-- C10 witness: a raw logic byte of 7 is normalised to `HIGH`, and the
sink produced by a concrete event-then-reply stream satisfies the
invariant. -/
theorem claim_C10_logiclevel_invariant_witness :
    (mkTeensyLineEvent 42 3 7).logiclevel = TeensyLineEvent.HIGH
    ∧ ((readPacket (eventFrame 3 42 7 ++ [2, ACKNOWLEDGE_SUCCES])).1.all levelOkB) = true :=
  ⟨claim_C10_logiclevel_invariant.2.1 42 3 7 (by decide),
   claim_C10_logiclevel_invariant.2.2.2.1 (eventFrame 3 42 7 ++ [2, ACKNOWLEDGE_SUCCES])⟩

end Pyteensy
